import Mathlib

/-!
Verification development for the GitHub repository-search tool
(`github_search_tool.py`).  The Python source is shallowly embedded:
pure functions become Lean functions, the HTTP transport becomes an
explicit `Remote` record of response functions, Python exceptions become
`Except`/`Option`, and Python `int` becomes `Int`.
-/

namespace GithubSearch

/-- Embeds the `SearchParameters` dataclass (defaults as in the source). -/
structure SearchParameters where
  keywords : String
  language : Option String := none
  min_stars : Int := 0
  topic : Option String := none
  sort_by : String := "stars"
  max_results : Int := 5
  include_readme : Bool := true
  fallback_search : Bool := true
  deriving DecidableEq, Repr

/-- Embeds the `Repository` dataclass. -/
structure Repository where
  name : String
  full_name : String
  description : Option String
  url : String
  stars : Int
  forks : Int
  language : Option String
  topics : List String
  created_at : String
  updated_at : String
  pushed_at : String
  open_issues : Int
  license : Option String
  readme_content : Option String := none
  deriving DecidableEq, Repr

/-- Python truthiness of an optional string: `None` and `""` are falsy. -/
def optTruthy : Option String → Bool
  | none => false
  | some s => s != ""

/-- Embeds `GitHubSearchTool._build_search_query` (lines 114-127): builds
`query_parts` incrementally and joins with a single space. -/
def build_search_query (params : SearchParameters) : String :=
  let query_parts := [params.keywords]
  let query_parts := query_parts ++
    (if optTruthy params.language then ["language:" ++ params.language.getD ""] else [])
  let query_parts := query_parts ++
    (if params.min_stars > 0 then ["stars:>=" ++ toString params.min_stars] else [])
  let query_parts := query_parts ++
    (if optTruthy params.topic then ["topic:" ++ params.topic.getD ""] else [])
  String.intercalate " " query_parts

/-- The parsed input JSON object: each top-level key of the documented
schema, `none` when the key is absent. -/
structure InputJson where
  keywords : Option String := none
  language : Option String := none
  min_stars : Option Int := none
  topic : Option String := none
  sort_by : Option String := none
  max_results : Option Int := none
  include_readme : Option Bool := none
  fallback_search : Option Bool := none
  deriving DecidableEq, Repr

/-- Embeds `parse_parameters` (lines 340-370): a missing `keywords` key
raises `ValueError`; `max_results` is taken through `min(.., 10)`. -/
def parse_parameters (data : InputJson) : Except String SearchParameters :=
  match data.keywords with
  | none => .error "\x27keywords\x27 is required"
  | some kw =>
      .ok {
        keywords := kw
        language := data.language
        min_stars := data.min_stars.getD 0
        topic := data.topic
        sort_by := data.sort_by.getD "stars"
        max_results := min (data.max_results.getD 5) 10
        include_readme := data.include_readme.getD true
        fallback_search := data.fallback_search.getD true
      }

/-- Embeds the `per_page` expression `min(params.max_results, 10)` at the
search call site (line 223). -/
def effectivePerPage (params : SearchParameters) : Int :=
  min params.max_results 10

/-- Character-list core of Python `str.lower()` (ASCII case mapping, which
covers every string the source manipulates). -/
def pyLower (s : String) : String :=
  ⟨s.data.map Char.toLower⟩

/-- Accumulator pass of Python `str.split()` with no separator: split on
runs of whitespace, producing no empty tokens. -/
def pySplitAux : List Char → List Char → List (List Char)
  | [], acc => if acc.isEmpty then [] else [acc.reverse]
  | c :: rest, acc =>
      if c.isWhitespace then
        if acc.isEmpty then pySplitAux rest [] else acc.reverse :: pySplitAux rest []
      else pySplitAux rest (c :: acc)

/-- Python `str.split()` (no argument): whitespace-run tokenisation. -/
def pySplit (s : String) : List String :=
  (pySplitAux s.data []).map String.mk

/-- Fuel-indexed scan of Python `str.replace`: replace each (leftmost,
non-overlapping) occurrence of `pat`. One unit of fuel is spent per
consumed character or per replaced occurrence, so `s.length` fuel
suffices for a non-empty `pat`. -/
def pyReplaceAux (pat rep : List Char) : Nat → List Char → List Char
  | 0, s => s
  | _ + 1, [] => []
  | fuel + 1, c :: rest =>
      if pat.isPrefixOf (c :: rest) then
        rep ++ pyReplaceAux pat rep fuel ((c :: rest).drop pat.length)
      else c :: pyReplaceAux pat rep fuel rest

/-- Python `str.replace(pat, rep)` for a non-empty `pat` (every call site
in the source passes a non-empty literal pattern; for an empty pattern
the source behaviour is never exercised and we return `s` unchanged). -/
def pyReplace (s pat rep : String) : String :=
  if pat = "" then s else ⟨pyReplaceAux pat.data rep.data s.data.length s.data⟩

/-- Python `sub in s` on strings: contiguous-substring containment. -/
def isSubstr : List Char → List Char → Bool
  | pat, [] => pat.isEmpty
  | pat, c :: rest => pat.isPrefixOf (c :: rest) || isSubstr pat rest

/-- The `abbreviations` dict of `_generate_search_suggestions`
(lines 135-149), in declaration order. -/
def abbreviations : List (String × String) :=
  [("ml", "machine learning"),
   ("ai", "artificial intelligence"),
   ("dl", "deep learning"),
   ("nlp", "natural language processing"),
   ("cv", "computer vision"),
   ("eda", "exploratory data analysis"),
   ("etl", "extract transform load"),
   ("api", "application programming interface"),
   ("cli", "command line"),
   ("gui", "graphical user interface"),
   ("db", "database"),
   ("auth", "authentication"),
   ("auto", "automated OR automatic")]

/-- The `topic_suggestions` dict (lines 174-183), in declaration order. -/
def topic_suggestions : List (String × String) :=
  [("data analysis", "data-science"),
   ("machine learning", "machine-learning"),
   ("web framework", "web"),
   ("automation", "automation"),
   ("visualization", "data-visualization"),
   ("api", "api"),
   ("cli", "cli"),
   ("testing", "testing")]

/-- The loop of lines 152-156: first `(abbr, expansion)` pair, in
declaration order, whose key occurs as a whole token of the (lowercased,
whitespace-split) keywords; the loop breaks at the first match. -/
def firstAbbrevMatch (tokens : List String) : List (String × String) → Option (String × String)
  | [] => none
  | (abbr, expn) :: rest =>
      if tokens.contains abbr then some (abbr, expn) else firstAbbrevMatch tokens rest

/-- The loop of lines 184-187: first topic pair whose key occurs as a
substring of the lowercased keywords; breaks at the first match. -/
def firstTopicMatch (keywords : String) : List (String × String) → Option String
  | [] => none
  | (kw, topic) :: rest =>
      if isSubstr kw.data keywords.data then some topic else firstTopicMatch keywords rest

/-- Embeds `GitHubSearchTool._generate_search_suggestions` (lines
129-193).  Each heuristic contributes the sub-list it appends; the final
two generic suggestions fire only when everything else was empty. -/
def generate_search_suggestions (params : SearchParameters) : List String :=
  let keywords := pyLower params.keywords
  let s1 : List String :=
    match firstAbbrevMatch (pySplit keywords) abbreviations with
    | some (abbr, expn) =>
        ["Try expanding abbreviations: \"" ++ pyReplace keywords abbr expn ++ "\""]
    | none => []
  let s2 : List String :=
    if params.min_stars > 100 then
      ["Try lowering min_stars from " ++ toString params.min_stars ++ " to " ++
        toString (params.min_stars.fdiv 2) ++ " or 50"]
    else []
  let s3 : List String :=
    if optTruthy params.language then
      ["Try searching without the language filter (remove language: \"" ++
        params.language.getD "" ++ "\")"]
    else []
  let keyword_list := pySplit params.keywords
  let s4 : List String :=
    if keyword_list.length > 2 then
      ["Try using fewer keywords: \"" ++ String.intercalate " " (keyword_list.take 2) ++ "\""]
    else []
  let s5 : List String :=
    if optTruthy params.topic then []
    else
      match firstTopicMatch keywords topic_suggestions with
      | some topic => ["Try adding topic filter: topic:\"" ++ topic ++ "\""]
      | none => []
  let suggestions := s1 ++ s2 ++ s3 ++ s4 ++ s5
  if suggestions.isEmpty then
    ["Try using more general or alternative keywords",
     "Check spelling and try common synonyms"]
  else suggestions

/-- Embeds the README truncation step of `_fetch_readme` (lines 282-286):
`decoded[:5000]` is the first 5000 characters. -/
def truncate_readme (decoded : String) : String :=
  if decoded.length > 5000 then
    String.mk (decoded.data.take 5000) ++ "\n\n[README truncated...]"
  else decoded

/-- Outcome of the README HTTP request, as `_fetch_readme` distinguishes
them: a 404, any other non-success status (`raise_for_status` raises),
a transport error, a `response.json()` failure, or a 2xx JSON body whose
`content` field is `ok content` (`none` when the key is absent). -/
inductive ReadmeResult where
  | notFound
  | httpError (status : Int)
  | networkError
  | badJson
  | ok (content : Option String)
  deriving DecidableEq, Repr

/-- Embeds `GitHubSearchTool._fetch_readme` (lines 259-290).  `decode`
stands for the external `base64.b64decode(..).decode("utf-8")` pipeline,
`none` when it raises; the enclosing `try`/`except` turns every failure
into `None`. -/
def fetch_readme (decode : String → Option String) : ReadmeResult → Option String
  | .notFound => none
  | .httpError _ => none
  | .networkError => none
  | .badJson => none
  | .ok contentField =>
      let content := contentField.getD ""
      if content != "" then
        match decode (pyReplace content "\n" "") with
        | some decoded => some (truncate_readme decoded)
        | none => none
      else none

/-- The README-retrieval failure modes listed by the spec: 404, other
non-success status, network error, unexpected JSON shape (no body or no
`content` key), or a base64/UTF-8 decode error. -/
def retrievalFailed (decode : String → Option String) : ReadmeResult → Bool
  | .notFound => true
  | .httpError _ => true
  | .networkError => true
  | .badJson => true
  | .ok contentField =>
      match contentField with
      | none => true
      | some c => c == "" || (decode (pyReplace c "\n" "")).isNone

/-- The `license` sub-object of a raw search item. -/
structure LicenseInfo where
  spdx_id : Option String := none
  deriving DecidableEq, Repr

/-- One element of the provider's `items` array, with the fields
`search_repositories` reads (optional ones `none` when the key is
absent). -/
structure RawItem where
  name : String
  full_name : String
  description : Option String := none
  html_url : String
  stargazers_count : Int
  forks_count : Int
  language : Option String := none
  topics : Option (List String) := none
  created_at : String
  updated_at : String
  pushed_at : String
  open_issues_count : Int
  license : Option LicenseInfo := none
  deriving DecidableEq, Repr

/-- Body of a successful search response: `data.get("items", [])`. -/
structure SearchData where
  items : Option (List RawItem)
  deriving DecidableEq, Repr

/-- Outcome of the primary `/search/repositories` request. -/
inductive SearchCallResult where
  | httpStatusError (status : Int) (text : String)
  | requestError (msg : String)
  | ok (data : SearchData)

/-- The remote collaborator: the search endpoint (applied to query, sort
and per-page), the per-repository README endpoint, and the base64/UTF-8
decoding pipeline. -/
structure Remote where
  search : String → String → Int → SearchCallResult
  readme : String → ReadmeResult
  decode : String → Option String

/-- The `sort_mapping.get(params.sort_by, "stars")` lookup
(lines 208-214). -/
def sort_mapping_get (s : String) : String :=
  if s = "stars" then "stars"
  else if s = "forks" then "forks"
  else if s = "updated" then "updated"
  else if s = "help-wanted-issues" then "help-wanted-issues"
  else "stars"

/-- The `Repository(...)` construction of lines 235-249 (README not yet
attached). -/
def normalize_item (item : RawItem) : Repository :=
  { name := item.name
    full_name := item.full_name
    description := item.description
    url := item.html_url
    stars := item.stargazers_count
    forks := item.forks_count
    language := item.language
    topics := item.topics.getD []
    created_at := item.created_at
    updated_at := item.updated_at
    pushed_at := item.pushed_at
    open_issues := item.open_issues_count
    license := match item.license with
      | some l => l.spdx_id
      | none => none }

/-- Embeds `GitHubSearchTool.search_repositories` (lines 195-257): one
search request, `RuntimeError` re-raising on HTTP or transport failure,
then per-item normalisation with an optional README fetch. -/
def search_repositories (params : SearchParameters) (remote : Remote) :
    Except String (List Repository) :=
  let query := build_search_query params
  let sort := sort_mapping_get params.sort_by
  match remote.search query sort (effectivePerPage params) with
  | .httpStatusError status text =>
      .error ("GitHub API error: " ++ toString status ++ " - " ++ text)
  | .requestError msg =>
      .error ("Request failed: " ++ msg)
  | .ok data =>
      .ok ((data.items.getD []).map fun item =>
        let repo := normalize_item item
        if params.include_readme then
          { repo with readme_content := fetch_readme remote.decode (remote.readme item.full_name) }
        else repo)

/-- The emitted top-level JSON object (success or failure shape): a field
is `none` exactly when the corresponding key is absent. -/
structure Output where
  success : Bool
  count : Option Nat := none
  repositories : Option (List Repository) := none
  suggestions : Option (List String) := none
  message : Option String := none
  error : Option String := none
  error_type : Option String := none
  deriving DecidableEq, Repr

/-- Embeds `GitHubSearchTool.format_output` (lines 292-333): the success
envelope, plus `suggestions`/`message` when the result list is empty and
parameters were supplied. -/
def format_output (repositories : List Repository) (params : Option SearchParameters) : Output :=
  let base : Output :=
    { success := true
      count := some repositories.length
      repositories := some repositories }
  match params with
  | some p =>
      if repositories.length = 0 then
        { base with
            suggestions := some (generate_search_suggestions p)
            message := some "No repositories found matching your criteria. See suggestions for alternative searches." }
      else base
  | none => base

/-- Result of one tool invocation: the envelope it prints, the process
exit code, and whether the primary search request was ever issued. -/
structure RunResult where
  output : Output
  exit_code : Nat
  search_attempted : Bool
  deriving DecidableEq, Repr

/-- Embeds the `try` block of `main` (lines 409-448): parse, search,
format; `ValueError` becomes a `validation_error` envelope and exit 1
before any request is made, `RuntimeError` an `api_error` envelope and
exit 1. -/
def run_main (input : InputJson) (remote : Remote) : RunResult :=
  match parse_parameters input with
  | .error e =>
      { output := { success := false, error := some e, error_type := some "validation_error" }
        exit_code := 1
        search_attempted := false }
  | .ok params =>
      match search_repositories params remote with
      | .error e =>
          { output := { success := false, error := some e, error_type := some "api_error" }
            exit_code := 1
            search_attempted := true }
      | .ok repos =>
          { output := format_output repos (some params)
            exit_code := 0
            search_attempted := true }

/-- C4: the query builder returns the space-separated concatenation, in
fixed order, of the raw keywords, then `language:<l>` when a language is
present, then `stars:>=<n>` when `min_stars > 0`, then `topic:<t>` when
a topic is present; on `{keywords := "x", language := "go",
min_stars := 50, topic := "cli"}` it returns exactly
`"x language:go stars:>=50 topic:cli"`. -/
theorem build_query_fixed_order :
    (∀ p : SearchParameters,
      build_search_query p =
        String.intercalate " "
          ([p.keywords] ++
            (if optTruthy p.language then ["language:" ++ p.language.getD ""] else []) ++
            (if p.min_stars > 0 then ["stars:>=" ++ toString p.min_stars] else []) ++
            (if optTruthy p.topic then ["topic:" ++ p.topic.getD ""] else []))) ∧
    build_search_query
        { keywords := "x", language := some "go", min_stars := 50, topic := some "cli" } =
      "x language:go stars:>=50 topic:cli" := by
  constructor
  · intro p
    simp [build_search_query, List.append_assoc]
  · rfl

/-- C10: in the query builder, an empty-string language or topic behaves
exactly like an absent one — no `language:`/`topic:` qualifier is emitted
for the empty string. -/
theorem build_query_empty_string_as_absent :
    ∀ p : SearchParameters,
      build_search_query { p with language := some "" } =
          build_search_query { p with language := none } ∧
      build_search_query { p with topic := some "" } =
          build_search_query { p with topic := none } := by
  intro p
  exact ⟨rfl, rfl⟩

/-- C3 counterexample: a `max_results` of 0 is not replaced by the
default 5 — parsing passes 0 through, and the effective page-size request
is 0, not 5. -/
theorem max_results_zero_not_defaulted :
    parse_parameters { keywords := some "x", max_results := some 0 } =
        .ok { keywords := "x", max_results := 0 } ∧
    effectivePerPage { keywords := "x", max_results := 0 } = 0 ∧
    effectivePerPage { keywords := "x", max_results := 0 } ≠ 5 := by
  refine ⟨rfl, rfl, ?_⟩
  decide

/-- C3 amended: parameter parsing clamps `max_results` only from above at
10: an absent `max_results` yields the default 5 (effective page size 5),
25 yields an effective page-size request of 10, and 0 is passed through
unchanged, yielding an effective page-size request of 0 (no lower clamp). -/
theorem max_results_upper_clamp_only :
    parse_parameters { keywords := some "x" } = .ok { keywords := "x", max_results := 5 } ∧
    effectivePerPage { keywords := "x", max_results := 5 } = 5 ∧
    parse_parameters { keywords := some "x", max_results := some 25 } =
        .ok { keywords := "x", max_results := 10 } ∧
    effectivePerPage { keywords := "x", max_results := 10 } = 10 ∧
    parse_parameters { keywords := some "x", max_results := some 0 } =
        .ok { keywords := "x", max_results := 0 } ∧
    effectivePerPage { keywords := "x", max_results := 0 } = 0 := by
  exact ⟨rfl, rfl, rfl, rfl, rfl, rfl⟩

/-- C6: on `{keywords := "ml tools", min_stars := 500,
language := "python"}` the suggestion engine returns exactly three
suggestions, in order: the abbreviation expansion of "ml" to "machine
learning", the star-halving suggestion mentioning 250 and 50, and the
language-removal suggestion naming "python" — each non-empty text. -/
theorem suggestions_ml_tools_python :
    generate_search_suggestions
        { keywords := "ml tools", language := some "python", min_stars := 500 } =
      ["Try expanding abbreviations: \"machine learning tools\"",
       "Try lowering min_stars from 500 to 250 or 50",
       "Try searching without the language filter (remove language: \"python\")"] ∧
    "Try expanding abbreviations: \"machine learning tools\"" ≠ "" ∧
    "Try lowering min_stars from 500 to 250 or 50" ≠ "" ∧
    "Try searching without the language filter (remove language: \"python\")" ≠ "" := by
  refine ⟨rfl, ?_, ?_, ?_⟩ <;> decide

/-- C5: a decoded README longer than 5000 characters is stored as exactly
its first 5000 characters followed by the literal marker
`"\n\n[README truncated...]"`; one of at most 5000 characters is returned
unmodified. -/
theorem readme_truncation :
    (∀ s : String, 5000 < s.length →
      truncate_readme s = String.mk (s.data.take 5000) ++ "\n\n[README truncated...]") ∧
    (∀ s : String, s.length ≤ 5000 → truncate_readme s = s) := by
  constructor
  · intro s h
    simp only [truncate_readme, if_pos h]
  · intro s h
    simp only [truncate_readme]
    rw [if_neg (by omega)]

/-- C5 witness: a 6000-character README is truncated to its first 5000
characters plus the marker; a 4000-character README is unchanged. -/
theorem readme_truncation_witness :
    truncate_readme (String.mk (List.replicate 6000 'a')) =
        String.mk (List.replicate 5000 'a') ++ "\n\n[README truncated...]" ∧
    truncate_readme (String.mk (List.replicate 4000 'b')) =
        String.mk (List.replicate 4000 'b') := by
  constructor
  · have h6 : (String.mk (List.replicate 6000 'a')).length = 6000 := by
      show (List.replicate 6000 'a').length = 6000
      rw [List.length_replicate]
    rw [readme_truncation.1 (String.mk (List.replicate 6000 'a')) (by omega)]
    have ht : (String.mk (List.replicate 6000 'a')).data.take 5000 =
        List.replicate 5000 'a' := by
      show (List.replicate 6000 'a').take 5000 = List.replicate 5000 'a'
      rw [List.take_replicate]
      norm_num
    rw [ht]
  · have h4 : (String.mk (List.replicate 4000 'b')).length = 4000 := by
      show (List.replicate 4000 'b').length = 4000
      rw [List.length_replicate]
    exact readme_truncation.2 (String.mk (List.replicate 4000 'b')) (by omega)

/-- C2: in every envelope the tool emits, the `suggestions` key is
present if and only if the envelope has `success = true` and a count of
zero; it never accompanies a nonzero count or a failure envelope. -/
theorem suggestions_iff_success_and_zero_count (input : InputJson) (remote : Remote) :
    (run_main input remote).output.suggestions.isSome = true ↔
      ((run_main input remote).output.success = true ∧
        (run_main input remote).output.count = some 0) := by
  rcases hp : parse_parameters input with e | params
  · simp [run_main, hp]
  · rcases hs : search_repositories params remote with e | repos
    · simp [run_main, hp, hs]
    · by_cases h : repos.length = 0
      · simp [run_main, hp, hs, format_output, h]
      · simp [run_main, hp, hs, format_output, h]

/-- C8: an input JSON without the `keywords` key fails with
`validation_error` and exit code 1, and the search request is never
issued. -/
theorem missing_keywords_validation_error (input : InputJson) (remote : Remote)
    (h : input.keywords = none) :
    (run_main input remote).output.success = false ∧
    (run_main input remote).output.error_type = some "validation_error" ∧
    (run_main input remote).exit_code = 1 ∧
    (run_main input remote).search_attempted = false := by
  simp [run_main, parse_parameters, h]

/-- A remote whose every request fails, used to instantiate theorems at
concrete inputs. -/
def downRemote : Remote :=
  { search := fun _ _ _ => .requestError "connection refused"
    readme := fun _ => .networkError
    decode := fun _ => none }

/-- C8 witness: the empty input object (no `keywords` key) against a
concrete remote. -/
theorem missing_keywords_validation_error_witness :
    (run_main {} downRemote).output.success = false ∧
    (run_main {} downRemote).output.error_type = some "validation_error" ∧
    (run_main {} downRemote).exit_code = 1 ∧
    (run_main {} downRemote).search_attempted = false :=
  missing_keywords_validation_error {} downRemote rfl

/-- C9: `fallback_search` has no effect on the output — two runs whose
inputs differ only in that key (against the same remote) produce
identical results, envelope included. -/
theorem fallback_search_no_effect (input : InputJson) (remote : Remote)
    (b1 b2 : Option Bool) :
    run_main { input with fallback_search := b1 } remote =
      run_main { input with fallback_search := b2 } remote := by
  cases input with
  | mk kw lang ms tp sb mr ir fb =>
    cases kw with
    | none => rfl
    | some k => rfl

/-- Every README-retrieval failure mode is swallowed by `_fetch_readme`
and becomes `none`. -/
theorem fetch_readme_none_of_failed (decode : String → Option String)
    (res : ReadmeResult) (h : retrievalFailed decode res = true) :
    fetch_readme decode res = none := by
  cases res with
  | notFound => rfl
  | httpError s => rfl
  | networkError => rfl
  | badJson => rfl
  | ok contentField =>
    cases contentField with
    | none => rfl
    | some c =>
      simp only [retrievalFailed, Bool.or_eq_true, beq_iff_eq,
        Option.isNone_iff_eq_none] at h
      rcases h with h | h
      · subst h
        rfl
      · simp [fetch_readme, h]

/-- The function format_output always builds a success envelope. -/
theorem format_output_success (rs : List Repository) (ps : Option SearchParameters) :
    (format_output rs ps).success = true := by
  unfold format_output
  rcases ps with _ | p
  · rfl
  · by_cases h : rs.length = 0
    · simp [h]
    · simp [h]

/-- C1: when the primary search succeeds and `include_readme` is true,
README-retrieval failures (404, other non-success status, network error,
decode error, unexpected JSON shape) never propagate: the repository
list is still produced in full, every repository whose README retrieval
failed carries `readme_content = none`, and the envelope keeps
`success = true`. -/
theorem readme_failure_confined (params : SearchParameters) (remote : Remote)
    (items : List RawItem)
    (hinc : params.include_readme = true)
    (hresp : remote.search (build_search_query params) (sort_mapping_get params.sort_by)
        (effectivePerPage params) = .ok ⟨some items⟩) :
    ∃ rs, search_repositories params remote = .ok rs ∧
      rs.length = items.length ∧
      (∀ r ∈ rs, retrievalFailed remote.decode (remote.readme r.full_name) = true →
        r.readme_content = none) ∧
      (format_output rs (some params)).success = true := by
  refine ⟨items.map fun item =>
      { normalize_item item with
          readme_content := fetch_readme remote.decode (remote.readme item.full_name) },
    ?_, ?_, ?_, ?_⟩
  · simp only [search_repositories]
    rw [hresp]
    simp [hinc]
  · simp
  · intro r hr hfail
    simp only [List.mem_map] at hr
    obtain ⟨item, _, rfl⟩ := hr
    have hfn : ({ normalize_item item with
        readme_content := fetch_readme remote.decode (remote.readme item.full_name) } :
          Repository).full_name = item.full_name := rfl
    rw [hfn] at hfail
    exact fetch_readme_none_of_failed _ _ hfail
  · exact format_output_success _ _

/-- A concrete raw search item. -/
def sampleItem : RawItem :=
  { name := "repo"
    full_name := "owner/repo"
    html_url := "https://example.org/owner/repo"
    stargazers_count := 1
    forks_count := 0
    created_at := "2024-01-01T00:00:00Z"
    updated_at := "2024-01-02T00:00:00Z"
    pushed_at := "2024-01-03T00:00:00Z"
    open_issues_count := 0 }

/-- A remote returning one hit whose README request 404s. -/
def sampleRemote : Remote :=
  { search := fun _ _ _ => .ok ⟨some [sampleItem]⟩
    readme := fun _ => .notFound
    decode := fun _ => none }

/-- Concrete parameters: bare keywords, `include_readme` defaulting to
true. -/
def sampleParams : SearchParameters := { keywords := "x" }

/-- C1 witness: one successful hit whose README fetch 404s still yields
the full one-element list with an absent README and a success
envelope. -/
theorem readme_failure_confined_witness :
    search_repositories sampleParams sampleRemote =
        .ok [{ normalize_item sampleItem with readme_content := none }] ∧
    (format_output [{ normalize_item sampleItem with readme_content := none }]
        (some sampleParams)).success = true := by
  obtain ⟨rs, h1, _, _, h4⟩ :=
    readme_failure_confined sampleParams sampleRemote [sampleItem] rfl rfl
  have he : search_repositories sampleParams sampleRemote =
      .ok [{ normalize_item sampleItem with readme_content := none }] := rfl
  rw [he] at h1
  have hrs := Except.ok.inj h1
  rw [← hrs] at h4
  exact ⟨he, h4⟩

/-- A prefix question is settled inside the first list when the pattern
is no longer than it. -/
theorem isPrefixOf_append_of_length_le (pat l1 l2 : List Char)
    (h : pat.length ≤ l1.length) :
    pat.isPrefixOf (l1 ++ l2) = pat.isPrefixOf l1 := by
  induction pat generalizing l1 with
  | nil => simp [List.isPrefixOf]
  | cons p ps ih =>
    cases l1 with
    | nil => simp at h
    | cons a l1 =>
      simp only [List.cons_append, List.isPrefixOf, List.append_eq]
      rw [ih l1 (by simpa using h)]

/-- The fixed text `"Try expanding"` opens the abbreviation suggestion
and no other suggestion the engine can emit. -/
theorem not_expansion_prefix (lit rest : List Char)
    (hlen : "Try expanding".data.length ≤ lit.length)
    (hlit : "Try expanding".data.isPrefixOf lit = false) :
    "Try expanding".data.isPrefixOf (lit ++ rest) = false := by
  rw [isPrefixOf_append_of_length_le _ _ _ hlen]
  exact hlit

/-- The scan firstAbbrevMatch only returns a pair of the scanned list
whose key is one of the tokens. -/
theorem firstAbbrevMatch_some (tokens : List String)
    (l : List (String × String)) (abbr expn : String)
    (h : firstAbbrevMatch tokens l = some (abbr, expn)) :
    tokens.contains abbr = true ∧ (abbr, expn) ∈ l := by
  induction l with
  | nil => simp [firstAbbrevMatch] at h
  | cons pair rest ih =>
    obtain ⟨a, e⟩ := pair
    by_cases hc : tokens.contains a
    · simp only [firstAbbrevMatch, if_pos hc, Option.some.injEq, Prod.mk.injEq] at h
      obtain ⟨rfl, rfl⟩ := h
      exact ⟨hc, List.mem_cons_self _ _⟩
    · simp only [firstAbbrevMatch, if_neg hc] at h
      obtain ⟨h1, h2⟩ := ih h
      exact ⟨h1, List.mem_cons_of_mem _ h2⟩

/-- C7 counterexample: on keywords `"ml html"` only the whole token
`"ml"` matches, yet the emitted suggestion reads
`"machine learning htmachine learning"` — the substitution also rewrote
the inside of the token `"html"`, so the other tokens are not left
unchanged as the claim states. -/
theorem abbreviation_substring_counterexample :
    (generate_search_suggestions { keywords := "ml html" }).head? =
        some "Try expanding abbreviations: \"machine learning htmachine learning\"" ∧
    "Try expanding abbreviations: \"machine learning htmachine learning\"" ≠
        "Try expanding abbreviations: \"machine learning html\"" := by
  refine ⟨rfl, ?_⟩
  decide

/-- C7 amended: the heuristic tokenizes the lowercased keywords on
whitespace, fires exactly when some whole token equals a mapping key
(keys checked in declaration order, stopping at the first match), and
the emitted suggestion — always the first suggestion — names the
lowercased keyword text with every substring occurrence of the matched
key replaced by its expansion (so tokens that merely contain the key as
a substring are altered too); when no token matches, no suggestion
starting with the expansion text is emitted. -/
theorem abbreviation_expansion_mechanism :
    (∀ (params : SearchParameters) (abbr expn : String),
      firstAbbrevMatch (pySplit (pyLower params.keywords)) abbreviations =
          some (abbr, expn) →
        (pySplit (pyLower params.keywords)).contains abbr = true ∧
        (abbr, expn) ∈ abbreviations ∧
        (generate_search_suggestions params).head? =
          some ("Try expanding abbreviations: \"" ++
            pyReplace (pyLower params.keywords) abbr expn ++ "\"")) ∧
    (∀ params : SearchParameters,
      firstAbbrevMatch (pySplit (pyLower params.keywords)) abbreviations = none →
        ∀ s ∈ generate_search_suggestions params,
          "Try expanding".data.isPrefixOf s.data = false) := by
  constructor
  · intro params abbr expn hmatch
    obtain ⟨h1, h2⟩ := firstAbbrevMatch_some _ _ _ _ hmatch
    refine ⟨h1, h2, ?_⟩
    simp only [generate_search_suggestions]
    rw [hmatch]
    simp
  · intro params hmatch s hs
    simp only [generate_search_suggestions] at hs
    rw [hmatch] at hs
    simp only [List.nil_append] at hs
    by_cases hempty :
        ((if params.min_stars > 100 then
            ["Try lowering min_stars from " ++ toString params.min_stars ++ " to " ++
              toString (params.min_stars.fdiv 2) ++ " or 50"]
          else []) ++
          (if optTruthy params.language then
            ["Try searching without the language filter (remove language: \"" ++
              params.language.getD "" ++ "\")"]
          else []) ++
          (if (pySplit params.keywords).length > 2 then
            ["Try using fewer keywords: \"" ++
              String.intercalate " " ((pySplit params.keywords).take 2) ++ "\""]
          else []) ++
          (if optTruthy params.topic then []
          else
            match firstTopicMatch (pyLower params.keywords) topic_suggestions with
            | some topic => ["Try adding topic filter: topic:\"" ++ topic ++ "\""]
            | none => [])).isEmpty = true
    · rw [if_pos hempty] at hs
      simp only [List.mem_cons, List.not_mem_nil, or_false] at hs
      rcases hs with rfl | rfl
      · decide
      · decide
    · rw [if_neg (by simpa using hempty)] at hs
      simp only [List.mem_append] at hs
      rcases hs with ((h | h) | h) | h
      · by_cases hc : params.min_stars > 100
        · rw [if_pos hc] at h
          simp only [List.mem_singleton] at h
          subst h
          rw [show ("Try lowering min_stars from " ++ toString params.min_stars ++
              " to " ++ toString (params.min_stars.fdiv 2) ++ " or 50").data =
              "Try lowering min_stars from ".data ++
                (toString params.min_stars ++ " to " ++
                  toString (params.min_stars.fdiv 2) ++ " or 50").data from by
            simp [String.data_append]]
          exact not_expansion_prefix _ _ (by decide) (by decide)
        · rw [if_neg hc] at h
          simp at h
      · by_cases hc : optTruthy params.language
        · rw [if_pos hc] at h
          simp only [List.mem_singleton] at h
          subst h
          rw [show ("Try searching without the language filter (remove language: \"" ++
              params.language.getD "" ++ "\")").data =
              "Try searching without the language filter (remove language: \"".data ++
                (params.language.getD "" ++ "\")").data from by
            simp [String.data_append]]
          exact not_expansion_prefix _ _ (by decide) (by decide)
        · rw [if_neg hc] at h
          simp at h
      · by_cases hc : (pySplit params.keywords).length > 2
        · rw [if_pos hc] at h
          simp only [List.mem_singleton] at h
          subst h
          rw [show ("Try using fewer keywords: \"" ++
              String.intercalate " " ((pySplit params.keywords).take 2) ++ "\"").data =
              "Try using fewer keywords: \"".data ++
                (String.intercalate " " ((pySplit params.keywords).take 2) ++ "\"").data from by
            simp [String.data_append]]
          exact not_expansion_prefix _ _ (by decide) (by decide)
        · rw [if_neg hc] at h
          simp at h
      · by_cases hc : optTruthy params.topic
        · rw [if_pos hc] at h
          simp at h
        · rw [if_neg hc] at h
          rcases hm : firstTopicMatch (pyLower params.keywords) topic_suggestions with
            _ | topic
          · rw [hm] at h
            simp at h
          · rw [hm] at h
            simp only [List.mem_singleton] at h
            subst h
            rw [show ("Try adding topic filter: topic:\"" ++ topic ++ "\"").data =
                "Try adding topic filter: topic:\"".data ++ (topic ++ "\"").data from by
              simp [String.data_append]]
            exact not_expansion_prefix _ _ (by decide) (by decide)

/-- C7 witness: the mechanism theorem instantiated at `"ml tools"`
(whole-token match on "ml") and, for the no-match direction, at `"zzz"`
and its first generic fallback suggestion. -/
theorem abbreviation_expansion_mechanism_witness :
    ((pySplit (pyLower "ml tools")).contains "ml" = true ∧
      ("ml", "machine learning") ∈ abbreviations ∧
      (generate_search_suggestions { keywords := "ml tools" }).head? =
        some ("Try expanding abbreviations: \"" ++
          pyReplace (pyLower "ml tools") "ml" "machine learning" ++ "\"")) ∧
    "Try expanding".data.isPrefixOf
        "Try using more general or alternative keywords".data = false :=
  ⟨abbreviation_expansion_mechanism.1 { keywords := "ml tools" } "ml" "machine learning" rfl,
    abbreviation_expansion_mechanism.2 ({ keywords := "zzz" } : SearchParameters) rfl
      "Try using more general or alternative keywords" (by decide)⟩

end GithubSearch
